import Mathlib

/-!
Verification of `tartiflette_asgi/_endpoints.py`: a shallow embedding of the
HTTP GraphQL endpoint (`GraphQLEndpoint.get`, `GraphQLEndpoint.post`,
`GraphQLEndpoint._get_response`, `GraphQLEndpoint.dispatch`), the GraphiQL
endpoint and the WebSocket subscription endpoint (`SubscriptionEndpoint.on_connect`),
together with theorems settling the specification claims about them.

Modelling conventions:
  * Python JSON values are `JVal`; `json.loads` is an abstract parameter
    `loads : String -> Option JVal` (the Python `json` module is an external
    collaborator; `none` models a raised `JSONDecodeError`).
  * Python `None` is `JVal.jnull`; `dict.get` with a default is `pyGet`.
  * The execution engine (external collaborator, see the spec's collaborator
    contract) is a function `EngineCall -> EngineResult`; every endpoint
    function returns, next to the `Response`, the list of engine invocations
    it performed, so that "the engine is not invoked" is `calls = []`.
  * `format_errors` (repo module `_errors`, not part of the analysed source
    file) is an abstract parameter `fe : JVal -> JVal`.
  * Python exceptions that escape the handler are `Except.error` of `PyErr`.
  * Python object identity / in-place mutation of dicts (needed for the
    fresh-context claim) is modelled by an explicit heap of dict cells.
-/

set_option autoImplicit false

namespace TartifletteAsgi

/-- Substring test on lists, used to model the Python `in` operator on
strings (`needle in hay`). -/
def listContains (needle : List Char) : List Char → Bool
  | [] => needle.isEmpty
  | c :: rest => needle.isPrefixOf (c :: rest) || listContains needle rest

/-- Python `needle in hay` on strings: substring containment. -/
def strContains (hay needle : String) : Bool :=
  listContains needle.toList hay.toList

/-- Starlette `QueryParams.__getitem__` / `.get`: for a repeated key the last
value wins (the underlying dict comprehension keeps the last occurrence). -/
def qpGet (ps : List (String × String)) (k : String) : Option String :=
  ps.foldl (fun acc p => if p.1 == k then some p.2 else acc) none

/-- Starlette `key in QueryParams`: key membership. -/
def qpHas (ps : List (String × String)) (k : String) : Bool :=
  ps.any (fun p => p.1 == k)

/-- ASCII lowercase on a string (header keys are ASCII). -/
def strLower (s : String) : String := ⟨s.toList.map Char.toLower⟩

/-- Starlette `Headers.get(key, default)`: case-insensitive key, first
occurrence wins. -/
def headerGetD (headers : List (String × String)) (k d : String) : String :=
  match headers.find? (fun p => strLower p.1 == strLower k) with
  | some p => p.2
  | none => d

/-- JSON values, the image of Python's `json.loads`. -/
inductive JVal where
  | jnull : JVal
  | jbool : Bool → JVal
  | jnum : Int → JVal
  | jstr : String → JVal
  | jarr : List JVal → JVal
  | jobj : List (String × JVal) → JVal

/-- An incoming HTTP request, reduced to the attributes the endpoint code
reads: method, ASGI root path, headers, query-string parameters and the
(already decoded) body. -/
structure Request where
  method : String
  rootPath : String
  headers : List (String × String)
  queryParams : List (String × String)
  body : String

/-- A value stored in an execution-context dict: either a configuration
value, the request handle (`"req"`) or the background-task sink
(`"background"`). -/
inductive CtxVal where
  | jval : JVal → CtxVal
  | req : Request → CtxVal
  | background : CtxVal

/-- An execution-context dict, as an insertion-ordered key/value list with
Python dict semantics (unique keys). -/
abbrev Ctx := List (String × CtxVal)

/-- Python `d[k] = v` on an insertion-ordered dict: overwrite in place when
the key exists, append otherwise. -/
def ctxInsert (c : Ctx) (kv : String × CtxVal) : Ctx :=
  if c.any (fun p => p.1 == kv.1) then
    c.map (fun p => if p.1 == kv.1 then (p.1, kv.2) else p)
  else
    c ++ [kv]

/-- Python `d.update(kvs)`. -/
def ctxUpdate (c : Ctx) (kvs : List (String × CtxVal)) : Ctx :=
  kvs.foldl ctxInsert c

/-- A Python dict literal built from the given entries in order (later
duplicates overwrite earlier ones). -/
def dictLit (kvs : List (String × CtxVal)) : Ctx :=
  ctxUpdate [] kvs

/-- The overlay written into the per-request context by
`context.update({"req": request, "background": background})`. -/
def httpOverlay (rq : Request) : List (String × CtxVal) :=
  [("req", CtxVal.req rq), ("background", CtxVal.background)]

/-- The value of the per-request execution context built by
`_get_response`: a copy of the base configuration context, overlaid with the
request handle and the background-task sink. -/
def httpContextValue (base : Ctx) (rq : Request) : Ctx :=
  ctxUpdate base (httpOverlay rq)

/-- One invocation of `engine.execute`: the query, the execution context,
the variables and the operation name that were passed. -/
structure EngineCall where
  query : JVal
  context : Ctx
  vars : JVal
  opName : JVal

/-- The engine's result structure `{data, errors?}` (collaborator contract:
`execute` returns a dict with a `"data"` entry and an optional `"errors"`
entry). -/
structure EngineResult where
  data : JVal
  errors : Option JVal

/-- The external execution engine. -/
abbrev Engine := EngineCall → EngineResult

/-- Python exceptions that can escape the handler code. -/
inductive PyErr where
  | keyError : PyErr
  | typeError : PyErr
  | attributeError : PyErr

/-- A response body: JSON, plain text or HTML. -/
inductive Body where
  | json : JVal → Body
  | text : String → Body
  | html : String → Body

/-- A Starlette response, reduced to status code and body. -/
structure Response where
  status : Nat
  body : Body

/-- GraphiQL configuration: its dedicated path (if any) and its template
renderer (external; receives the graphql endpoint and the optional
subscriptions endpoint). -/
structure GraphiQLCfg where
  path : Option String
  render : String → Option String → String

/-- Subscriptions configuration, reduced to the mounted path. -/
structure SubscriptionsCfg where
  path : String

/-- The shared GraphQL configuration returned by `get_graphql_config`. -/
structure Config where
  engine : Engine
  context : Ctx
  path : String
  graphiql : Option GraphiQLCfg
  subscriptions : Option SubscriptionsCfg

/-- The `data` object handed to `_get_response`: either the request's query
parameters or a JSON value (the parsed body, or the synthesized
`{"query": body}` dict). -/
inductive PyData where
  | qp : List (String × String) → PyData
  | jsonData : JVal → PyData

/-- Python `data[k]`: `KeyError` when the key is absent, `TypeError` when a
non-dict JSON value is indexed with a string. -/
def PyData.getitem : PyData → String → Except PyErr JVal
  | .qp ps, k =>
    match qpGet ps k with
    | some v => .ok (.jstr v)
    | none => .error .keyError
  | .jsonData (.jobj kvs), k =>
    match kvs.lookup k with
    | some v => .ok v
    | none => .error .keyError
  | .jsonData _, _ => .error .typeError

/-- Python `data.get(k)` (default `None`): `AttributeError` when called on a
non-dict JSON value. -/
def PyData.getOpt : PyData → String → Except PyErr JVal
  | .qp ps, k =>
    match qpGet ps k with
    | some v => .ok (.jstr v)
    | none => .ok .jnull
  | .jsonData (.jobj kvs), k => .ok ((kvs.lookup k).getD .jnull)
  | .jsonData _, _ => .error .attributeError

/-- Python `d.get(k, default)` on a parsed JSON value: `AttributeError` when
`d` is not a dict. -/
def pyGet (d : JVal) (k : String) (default : JVal) : Except PyErr JVal :=
  match d with
  | .jobj kvs => .ok ((kvs.lookup k).getD default)
  | _ => .error .attributeError

/-- The JSON error response produced when the `variables` query-string
parameter fails to parse. -/
def badVariablesResponse : Response :=
  ⟨400, .json (.jobj [("error", .jstr "Unable to decode variables: Invalid JSON.")])⟩

/-- The shared prologue of `GraphQLEndpoint.get` and `GraphQLEndpoint.post`:
`variables = None; if "variables" in request.query_params: try json.loads ...
except: return 400`. Returns the early-exit response or the parsed value
(`jnull` when the parameter is absent). -/
def qsVariables (loads : String → Option JVal) (req : Request) : Except Response JVal :=
  match qpGet req.queryParams "variables" with
  | none => .ok .jnull
  | some raw =>
    match loads raw with
    | some v => .ok v
    | none => .error badVariablesResponse

/-- `GraphQLEndpoint._get_response`: extract the query (400 when absent),
build the per-request context, call the engine and build the
`{data, errors?}` JSON response with status 200/400. -/
def GraphQLEndpoint.getResponse (fe : JVal → JVal) (cfg : Config) (req : Request)
    (data : PyData) (vars : JVal) : Except PyErr (Response × List EngineCall) :=
  match data.getitem "query" with
  | .error .keyError => .ok (⟨400, .text "No GraphQL query found in the request"⟩, [])
  | .error e => .error e
  | .ok query =>
    match data.getOpt "operationName" with
    | .error e => .error e
    | .ok opName =>
      let call : EngineCall := ⟨query, httpContextValue cfg.context req, vars, opName⟩
      let r := cfg.engine call
      let content : JVal := .jobj (("data", r.data) ::
        (match r.errors with
         | some errs => [("errors", fe errs)]
         | none => []))
      .ok (⟨if r.errors.isSome then 400 else 200, .json content⟩, [call])

/-- `GraphQLEndpoint.get`. -/
def GraphQLEndpoint.get (loads : String → Option JVal) (fe : JVal → JVal)
    (cfg : Config) (req : Request) : Except PyErr (Response × List EngineCall) :=
  match qsVariables loads req with
  | .error resp => .ok (resp, [])
  | .ok vars =>
    GraphQLEndpoint.getResponse fe cfg req (.qp req.queryParams) vars

/-- `GraphQLEndpoint.post`: parse query-string variables, then branch on the
Content-Type header (`application/json`, then `application/graphql`, then a
`query` query-string parameter, else 415). -/
def GraphQLEndpoint.post (loads : String → Option JVal) (fe : JVal → JVal)
    (cfg : Config) (req : Request) : Except PyErr (Response × List EngineCall) :=
  let contentType := headerGetD req.headers "Content-Type" ""
  match qsVariables loads req with
  | .error resp => .ok (resp, [])
  | .ok vars =>
    if strContains contentType "application/json" then
      match loads req.body with
      | none => .ok (⟨400, .json (.jobj [("error", .jstr "Invalid JSON.")])⟩, [])
      | some d =>
        match pyGet d "variables" vars with
        | .error e => .error e
        | .ok bodyVariables =>
          GraphQLEndpoint.getResponse fe cfg req (.jsonData d) bodyVariables
    else if strContains contentType "application/graphql" then
      GraphQLEndpoint.getResponse fe cfg req
        (.jsonData (.jobj [("query", .jstr req.body)])) vars
    else if qpHas req.queryParams "query" then
      GraphQLEndpoint.getResponse fe cfg req (.qp req.queryParams) vars
    else
      .ok (⟨415, .text "Unsupported Media Type"⟩, [])

/-- `GraphiQLEndpoint.get`: render the GraphiQL template at the configured
endpoints; the `assert graphiql is not None` becomes an error when the
configuration has no GraphiQL section. -/
def GraphiQLEndpoint.get (cfg : Config) (req : Request) : Except PyErr Response :=
  let graphqlEndpoint := req.rootPath ++ cfg.path
  let subscriptionsEndpoint := cfg.subscriptions.map (fun s => req.rootPath ++ s.path)
  match cfg.graphiql with
  | none => .error .attributeError
  | some g => .ok ⟨200, .html (g.render graphqlEndpoint subscriptionsEndpoint)⟩

/-- Python truthiness test `graphiql and graphiql.path is None`. -/
def graphiqlNoPath (cfg : Config) : Bool :=
  match cfg.graphiql with
  | some g => g.path.isNone
  | none => false

/-- Starlette `HTTPEndpoint` method routing for an endpoint class: `HEAD`
falls back to the `get` handler when no `head` handler exists; a missing
handler yields 405 Method Not Allowed. `hasPost` says whether the class
defines `post`. -/
def methodAllowsGet (method : String) : Bool :=
  method == "GET" || method == "HEAD"

/-- `GraphQLEndpoint.dispatch`: serve GraphiQL (or 404) to `Accept:
text/html` clients, otherwise route to the `get`/`post` handlers. -/
def GraphQLEndpoint.dispatch (loads : String → Option JVal) (fe : JVal → JVal)
    (cfg : Config) (req : Request) : Except PyErr (Response × List EngineCall) :=
  if strContains (headerGetD req.headers "Accept" "") "text/html" then
    if graphiqlNoPath cfg then
      if methodAllowsGet req.method then
        match GraphiQLEndpoint.get cfg req with
        | .ok r => .ok (r, [])
        | .error e => .error e
      else .ok (⟨405, .text "Method Not Allowed"⟩, [])
    else .ok (⟨404, .text "Not Found"⟩, [])
  else
    if methodAllowsGet req.method then GraphQLEndpoint.get loads fe cfg req
    else if req.method == "POST" then GraphQLEndpoint.post loads fe cfg req
    else .ok (⟨405, .text "Method Not Allowed"⟩, [])

/-- The engine calls performed by a handler run (a raised exception happens
before any pending engine call, so an error carries none). -/
def callsOf : Except PyErr (Response × List EngineCall) → List EngineCall
  | .ok (_, cs) => cs
  | .error _ => []

/-! ### Python object heap

The fresh-context claim is about mutation: `copy.deepcopy(config.context)`
allocates a new dict object and `context.update(...)` mutates only that new
object, leaving the shared configuration's dict untouched. We model the
Python object store for context dicts explicitly. -/

/-- A heap of context-dict objects: references are allocation indices below
`next`. -/
structure Heap where
  next : Nat
  cells : Nat → Ctx

/-- Dereference. -/
def Heap.get (h : Heap) (r : Nat) : Ctx := h.cells r

/-- Allocate a fresh dict object holding `c`. -/
def Heap.alloc (h : Heap) (c : Ctx) : Heap × Nat :=
  (⟨h.next + 1, fun j => if j = h.next then c else h.cells j⟩, h.next)

/-- In-place overwrite of the object at `r`. -/
def Heap.set (h : Heap) (r : Nat) (c : Ctx) : Heap :=
  ⟨h.next, fun j => if j = r then c else h.cells j⟩

/-- `copy.deepcopy` of the dict at `r`: allocate a fresh object with the same
value (context values themselves are immutable in this model). -/
def deepcopyCtx (h : Heap) (r : Nat) : Heap × Nat :=
  h.alloc (h.get r)

/-- `d.update(kvs)` on the dict object at `r`. -/
def dictUpdateAt (h : Heap) (r : Nat) (kvs : List (String × CtxVal)) : Heap :=
  h.set r (ctxUpdate (h.get r) kvs)

/-- Lines 87-89 of `_get_response` acting on the heap: first the dead dict
literal `{"req": ..., "background": ..., **config.context}` (allocated and
immediately abandoned by the rebinding), then `copy.deepcopy(config.context)`,
then the in-place `update` of the fresh copy. Returns the reference handed to
the engine. -/
def buildHttpContext (h : Heap) (r : Nat) (rq : Request) : Heap × Nat :=
  let h87 := (h.alloc (dictLit (("req", CtxVal.req rq) ::
    ("background", CtxVal.background) :: h.get r))).1
  let p := deepcopyCtx h87 r
  (dictUpdateAt p.1 p.2 (httpOverlay rq), p.2)

/-- Line 131 of `SubscriptionEndpoint.on_connect` acting on the heap:
`context = copy.deepcopy(config.context)`. -/
def buildWsContext (h : Heap) (r : Nat) : Heap × Nat :=
  deepcopyCtx h r

/-! ### WebSocket subscription endpoint -/

/-- Modelled from the spec: `GraphQLWSProtocol.name`, the expected
subprotocol name (a class attribute of the `_subscriptions` module, which is
outside the analysed source file; the spec calls it "the expected
subprotocol name"). -/
def graphqlWsName : String := "graphql-ws"

/-- The transport side of a WebSocket connection: `accept` with a chosen
subprotocol either succeeds or fails (an exception from the transport). -/
structure WsConn where
  acceptSub : String → Except String Unit

/-- The constructed subscription session (`GraphQLWSProtocol(websocket=...,
engine=..., context=...)`), reduced to its constructor arguments. -/
structure GraphQLWSProtocol where
  websocket : WsConn
  engine : Engine
  context : Ctx

/-- `SubscriptionEndpoint.on_connect`: accept with the expected subprotocol
name, then construct the session with a fresh copy of the configuration
context (`deepcopy` is the identity on context values; freshness of the dict
object is the heap theorem about `buildWsContext`). -/
def SubscriptionEndpoint.onConnect (cfg : Config) (ws : WsConn) :
    Except String GraphQLWSProtocol :=
  match ws.acceptSub graphqlWsName with
  | .error e => .error e
  | .ok _ => .ok ⟨ws, cfg.engine, cfg.context⟩

/-! ### Concrete fixtures for witnesses and counterexamples -/

/-- An engine that returns `{data: null}` with no errors. -/
def engine0 : Engine := fun _ => ⟨.jnull, none⟩

/-- An engine that returns `{data: null, errors: [...]}`. -/
def engineErr : Engine := fun _ => ⟨.jnull, some (.jarr [.jstr "boom"])⟩

/-- A trivial error formatter. -/
def fe0 : JVal → JVal := fun v => v

/-- A JSON decoder that rejects everything. -/
def loads0 : String → Option JVal := fun _ => none

/-- A minimal configuration. -/
def cfg0 : Config := ⟨engine0, [], "/graphql", none, none⟩

/-- A minimal request. -/
def req0 : Request := ⟨"POST", "", [], [], "hello"⟩

/-- A POST with an unsupported Content-Type but a `query` query-string
parameter (the counterexample input for C2). -/
def reqC2 : Request := ⟨"POST", "", [("content-type", "text/plain")], [("query", "hello")], ""⟩

/-- A transport that accepts every subprotocol. -/
def wsOk : WsConn := ⟨fun _ => .ok ()⟩

/-- A transport whose accept fails. -/
def wsFail : WsConn := ⟨fun _ => .error "closed"⟩

/-- A one-cell heap whose cell 0 holds a one-entry base context. -/
def heap0 : Heap := ⟨1, fun _ => [("answer", CtxVal.jval (JVal.jnum 42))]⟩

/-- The counterexample input for C6: its Content-Type contains
`application/graphql`, but also `application/json`. -/
def reqC6 : Request :=
  ⟨"POST", "", [("content-type", "application/json, application/graphql")], [], "hello"⟩

/-- A decoder for the C7 fixtures: the body `BODY` parses to
`{query: hello-query, variables: []}`, everything else is invalid JSON. -/
def loadsC7 : String → Option JVal := fun s =>
  if s = "BODY" then
    some (.jobj [("query", .jstr "hello"), ("variables", .jarr [])])
  else none

/-- The counterexample input for C7: the JSON body has both fields, but the
`variables` query-string parameter is malformed. -/
def reqC7 : Request :=
  ⟨"POST", "", [("content-type", "application/json")], [("variables", "nope")], "BODY"⟩

/-- A decoder for the C9 fixtures: `BODY1` parses to a body with both
`query` and `variables`, `BODY2` to a body with only `query`, and the
query-string value `VGOOD` to the number 7; everything else is invalid. -/
def loadsC9 : String → Option JVal := fun s =>
  if s = "BODY1" then
    some (.jobj [("query", .jstr "hello"), ("variables", .jobj [("x", .jnum 1)])])
  else if s = "BODY2" then
    some (.jobj [("query", .jstr "hello")])
  else if s = "VGOOD" then
    some (.jnum 7)
  else none

/-- The counterexample input for C9: JSON body with a `variables` entry, but
a malformed `variables` query-string parameter. -/
def reqC9 : Request :=
  ⟨"POST", "", [("content-type", "application/json")], [("variables", "nope")], "BODY1"⟩

/-- The witness input for C8: a POST/GET request with no query anywhere and
an unsupported Content-Type. -/
def reqC8 : Request := ⟨"POST", "", [("content-type", "text/plain")], [], ""⟩

/-- A GraphiQL configuration without a dedicated path, rendering the fixed
page `PAGE`. -/
def gqlCfg0 : GraphiQLCfg := ⟨none, fun _ _ => "PAGE"⟩

/-- A configuration with GraphiQL mounted without a dedicated path. -/
def cfgC10 : Config := ⟨engine0, [], "/graphql", some gqlCfg0, none⟩

/-- The counterexample input for C10: a POST with `Accept: text/html`. -/
def reqC10 : Request := ⟨"POST", "", [("accept", "text/html")], [], ""⟩

/-! ### Claim theorems -/

/-- C1: for every HTTP GraphQL request that reaches execution (the query was
extracted from `data` and the operation name lookup succeeded), the response
body is a JSON object carrying the engine result's `data` entry, with a
formatted `errors` entry exactly when the engine result contains errors, and
the status is 200 without errors and 400 with them. -/
theorem C1_execution_response (fe : JVal → JVal) (cfg : Config) (req : Request)
    (data : PyData) (vars : JVal) (q opn : JVal)
    (hq : data.getitem "query" = .ok q)
    (ho : data.getOpt "operationName" = .ok opn) :
    GraphQLEndpoint.getResponse fe cfg req data vars =
      .ok (⟨if (cfg.engine ⟨q, httpContextValue cfg.context req, vars, opn⟩).errors.isSome
              then 400 else 200,
            .json (.jobj (("data",
                (cfg.engine ⟨q, httpContextValue cfg.context req, vars, opn⟩).data) ::
              (match (cfg.engine ⟨q, httpContextValue cfg.context req, vars, opn⟩).errors with
               | some errs => [("errors", fe errs)]
               | none => [])))⟩,
           [⟨q, httpContextValue cfg.context req, vars, opn⟩]) := by
  unfold GraphQLEndpoint.getResponse
  rw [hq, ho]

/-- Witness for C1 at a concrete request, once with an error-free engine
result (status 200) and once with an erroring engine (status 400). -/
theorem C1_execution_response_witness :
    ((PyData.jsonData (JVal.jobj [("query", JVal.jstr "hello")])).getitem "query" =
        Except.ok (JVal.jstr "hello") ∧
      GraphQLEndpoint.getResponse fe0 cfg0 req0
          (PyData.jsonData (JVal.jobj [("query", JVal.jstr "hello")])) JVal.jnull =
        .ok (⟨200, .json (.jobj [("data", JVal.jnull)])⟩,
             [⟨JVal.jstr "hello", httpContextValue [] req0, JVal.jnull, JVal.jnull⟩])) ∧
    GraphQLEndpoint.getResponse fe0 ⟨engineErr, [], "/graphql", none, none⟩ req0
        (PyData.jsonData (JVal.jobj [("query", JVal.jstr "hello")])) JVal.jnull =
      .ok (⟨400, .json (.jobj [("data", JVal.jnull),
              ("errors", JVal.jarr [JVal.jstr "boom"])])⟩,
           [⟨JVal.jstr "hello", httpContextValue [] req0, JVal.jnull, JVal.jnull⟩]) :=
  ⟨⟨rfl, C1_execution_response fe0 cfg0 req0 _ _ _ _ rfl rfl⟩,
   C1_execution_response fe0 ⟨engineErr, [], "/graphql", none, none⟩ req0 _ _ _ _ rfl rfl⟩

/-- C5: for every GET or POST request whose `variables` query-string
parameter is present but fails to parse as JSON, the handler answers 400
with a JSON body carrying an explanatory message, and the engine is not
invoked. -/
theorem C5_malformed_variables (loads : String → Option JVal) (fe : JVal → JVal)
    (cfg : Config) (req : Request) (raw : String)
    (hv : qpGet req.queryParams "variables" = some raw)
    (hl : loads raw = none) :
    GraphQLEndpoint.get loads fe cfg req = .ok (badVariablesResponse, []) ∧
    GraphQLEndpoint.post loads fe cfg req = .ok (badVariablesResponse, []) ∧
    badVariablesResponse =
      ⟨400, .json (.jobj [("error", .jstr "Unable to decode variables: Invalid JSON.")])⟩ := by
  have hqs : qsVariables loads req = .error badVariablesResponse := by
    unfold qsVariables
    rw [hv]
    simp [hl]
  refine ⟨?_, ?_, rfl⟩
  · unfold GraphQLEndpoint.get
    rw [hqs]
  · unfold GraphQLEndpoint.post
    rw [hqs]

/-- Witness for C5: a request whose `variables` parameter is `nope`, with a
decoder that rejects it. -/
theorem C5_malformed_variables_witness :
    (qpGet [("variables", "nope")] "variables" = some "nope" ∧ loads0 "nope" = none) ∧
    (GraphQLEndpoint.get loads0 fe0 cfg0 ⟨"GET", "", [], [("variables", "nope")], ""⟩ =
        .ok (badVariablesResponse, []) ∧
      GraphQLEndpoint.post loads0 fe0 cfg0 ⟨"POST", "", [], [("variables", "nope")], ""⟩ =
        .ok (badVariablesResponse, []) ∧
      badVariablesResponse =
        ⟨400, .json (.jobj [("error", .jstr "Unable to decode variables: Invalid JSON.")])⟩) :=
  ⟨⟨rfl, rfl⟩,
   (C5_malformed_variables loads0 fe0 cfg0 ⟨"GET", "", [], [("variables", "nope")], ""⟩
      "nope" rfl rfl).1,
   (C5_malformed_variables loads0 fe0 cfg0 ⟨"POST", "", [], [("variables", "nope")], ""⟩
      "nope" rfl rfl).2⟩

/-- C2 (amended): a POST whose Content-Type contains neither
`application/json` nor `application/graphql` is answered 415 without
invoking the engine, provided the query string carries no `query` parameter
and its `variables` parameter (if present) parses as JSON. -/
theorem C2_unsupported_media_type (loads : String → Option JVal) (fe : JVal → JVal)
    (cfg : Config) (req : Request) (vars : JVal)
    (hj : strContains (headerGetD req.headers "Content-Type" "") "application/json" = false)
    (hg : strContains (headerGetD req.headers "Content-Type" "") "application/graphql" = false)
    (hq : qpHas req.queryParams "query" = false)
    (hv : qsVariables loads req = .ok vars) :
    GraphQLEndpoint.post loads fe cfg req = .ok (⟨415, .text "Unsupported Media Type"⟩, []) := by
  unfold GraphQLEndpoint.post
  rw [hv]
  simp [hj, hg, hq]

/-- Witness for C2 at a POST with Content-Type `text/plain` and an empty
query string. -/
theorem C2_unsupported_media_type_witness :
    (strContains (headerGetD [("content-type", "text/plain")] "Content-Type" "")
        "application/json" = false ∧
      qsVariables loads0 ⟨"POST", "", [("content-type", "text/plain")], [], ""⟩ =
        .ok .jnull) ∧
    GraphQLEndpoint.post loads0 fe0 cfg0 ⟨"POST", "", [("content-type", "text/plain")], [], ""⟩ =
      .ok (⟨415, .text "Unsupported Media Type"⟩, []) :=
  ⟨⟨rfl, rfl⟩,
   C2_unsupported_media_type loads0 fe0 cfg0
     ⟨"POST", "", [("content-type", "text/plain")], [], ""⟩ .jnull rfl rfl rfl rfl⟩

/-- Counterexample to C2 as stated: this POST's Content-Type contains
neither `application/json` nor `application/graphql`, yet the response is
200 (not 415) and the engine is invoked once, because the handler falls back
to the `query` query-string parameter. -/
theorem C2_counterexample :
    strContains (headerGetD reqC2.headers "Content-Type" "") "application/json" = false ∧
    strContains (headerGetD reqC2.headers "Content-Type" "") "application/graphql" = false ∧
    GraphQLEndpoint.post loads0 fe0 cfg0 reqC2 =
      .ok (⟨200, .json (.jobj [("data", JVal.jnull)])⟩,
           [⟨JVal.jstr "hello", httpContextValue [] reqC2, JVal.jnull, JVal.jnull⟩]) ∧
    (200 : Nat) ≠ 415 :=
  ⟨rfl, rfl, rfl, by decide⟩

/-- C4: `on_connect` first negotiates the expected subprotocol name by
accepting with `GraphQLWSProtocol.name`; when that accept fails the failure
propagates and no `GraphQLWSProtocol` session value is ever constructed, and
a session is constructed exactly when the accept succeeded. -/
theorem C4_subprotocol (cfg : Config) (ws : WsConn) :
    (∀ e, ws.acceptSub graphqlWsName = .error e →
      SubscriptionEndpoint.onConnect cfg ws = .error e) ∧
    (∀ u, ws.acceptSub graphqlWsName = .ok u →
      SubscriptionEndpoint.onConnect cfg ws = .ok ⟨ws, cfg.engine, cfg.context⟩) := by
  constructor
  · intro e he
    unfold SubscriptionEndpoint.onConnect
    rw [he]
  · intro u hu
    unfold SubscriptionEndpoint.onConnect
    rw [hu]

/-- Witness for C4: with an accepting transport the session is constructed;
with a failing transport the failure propagates and no session exists. -/
theorem C4_subprotocol_witness :
    (wsOk.acceptSub graphqlWsName = .ok () ∧
      SubscriptionEndpoint.onConnect cfg0 wsOk = .ok ⟨wsOk, cfg0.engine, cfg0.context⟩) ∧
    (wsFail.acceptSub graphqlWsName = .error "closed" ∧
      SubscriptionEndpoint.onConnect cfg0 wsFail = .error "closed") :=
  ⟨⟨rfl, (C4_subprotocol cfg0 wsOk).2 () rfl⟩,
   ⟨rfl, (C4_subprotocol cfg0 wsFail).1 "closed" rfl⟩⟩

/-! ### Heap lemmas for the fresh-context claim -/

theorem Heap.next_alloc (h : Heap) (c : Ctx) : (h.alloc c).1.next = h.next + 1 := rfl

theorem Heap.get_alloc_lt (h : Heap) (c : Ctx) (i : Nat) (hi : i < h.next) :
    (h.alloc c).1.get i = h.get i := by
  unfold Heap.alloc Heap.get
  simp only
  rw [if_neg (by omega)]

theorem Heap.get_alloc_self (h : Heap) (c : Ctx) : (h.alloc c).1.get h.next = c := by
  unfold Heap.alloc Heap.get
  simp

theorem Heap.get_set_self (h : Heap) (r : Nat) (c : Ctx) : (h.set r c).get r = c := by
  unfold Heap.set Heap.get
  simp

theorem Heap.get_set_ne (h : Heap) (r : Nat) (c : Ctx) (i : Nat) (hi : i ≠ r) :
    (h.set r c).get i = h.get i := by
  unfold Heap.set Heap.get
  simp [hi]

/-- C3: handling a request allocates fresh context objects. On the heap,
`_get_response`'s context construction (dead merged dict, `deepcopy`,
in-place `update`) leaves the shared configuration context object unchanged
and hands the engine a fresh object holding the copied base context overlaid
with the request handle and background-task sink; `on_connect`'s `deepcopy`
likewise leaves the shared object unchanged and yields a fresh copy. At the
value level, every engine call made by `_get_response` carries exactly
`httpContextValue cfg.context req`, and the session constructed by
`on_connect` carries the (copied) configuration context value. -/
theorem C3_fresh_context (h : Heap) (r : Nat) (rq : Request) (hr : r < h.next) :
    ((buildHttpContext h r rq).1.get r = h.get r ∧
      (buildHttpContext h r rq).2 ≠ r ∧
      (buildHttpContext h r rq).1.get (buildHttpContext h r rq).2 =
        httpContextValue (h.get r) rq ∧
      (buildWsContext h r).1.get r = h.get r ∧
      (buildWsContext h r).2 ≠ r ∧
      (buildWsContext h r).1.get (buildWsContext h r).2 = h.get r) ∧
    (∀ (fe : JVal → JVal) (cfg : Config) (req : Request) (data : PyData) (vars : JVal)
        (resp : Response) (c : EngineCall),
      GraphQLEndpoint.getResponse fe cfg req data vars = .ok (resp, [c]) →
      c.context = httpContextValue cfg.context req) ∧
    (∀ (cfg : Config) (ws : WsConn) (p : GraphQLWSProtocol),
      SubscriptionEndpoint.onConnect cfg ws = .ok p → p.context = cfg.context) := by
  refine ⟨⟨?_, ?_, ?_, ?_, ?_, ?_⟩, ?_, ?_⟩
  · simp only [buildHttpContext, deepcopyCtx, dictUpdateAt, Heap.alloc, Heap.set, Heap.get]
    rw [if_neg (by omega), if_neg (by omega), if_neg (by omega)]
  · simp only [buildHttpContext, deepcopyCtx, dictUpdateAt, Heap.alloc, Heap.set, Heap.get]
    omega
  · simp only [buildHttpContext, deepcopyCtx, dictUpdateAt, Heap.alloc, Heap.set, Heap.get,
      httpContextValue, if_pos]
    rw [if_neg (by omega)]
  · simp only [buildWsContext, deepcopyCtx, Heap.alloc, Heap.get]
    rw [if_neg (by omega)]
  · simp only [buildWsContext, deepcopyCtx, Heap.alloc, Heap.get]
    omega
  · simp only [buildWsContext, deepcopyCtx, Heap.alloc, Heap.get, if_pos]
  · intro fe cfg req data vars resp c hok
    cases hq : data.getitem "query" with
    | error e =>
      cases e <;> simp [GraphQLEndpoint.getResponse, hq] at hok
    | ok q =>
      cases ho : data.getOpt "operationName" with
      | error e => simp [GraphQLEndpoint.getResponse, hq, ho] at hok
      | ok opn =>
        simp [GraphQLEndpoint.getResponse, hq, ho] at hok
        rw [← hok.2]
  · intro cfg ws p hok
    cases hacc : ws.acceptSub graphqlWsName with
    | error e => simp [SubscriptionEndpoint.onConnect, hacc] at hok
    | ok u =>
      simp [SubscriptionEndpoint.onConnect, hacc] at hok
      rw [← hok]

/-- Witness for C3 on a concrete one-cell heap. -/
theorem C3_fresh_context_witness :
    0 < heap0.next ∧
    (((buildHttpContext heap0 0 req0).1.get 0 = heap0.get 0 ∧
        (buildHttpContext heap0 0 req0).2 ≠ 0 ∧
        (buildHttpContext heap0 0 req0).1.get (buildHttpContext heap0 0 req0).2 =
          httpContextValue (heap0.get 0) req0 ∧
        (buildWsContext heap0 0).1.get 0 = heap0.get 0 ∧
        (buildWsContext heap0 0).2 ≠ 0 ∧
        (buildWsContext heap0 0).1.get (buildWsContext heap0 0).2 = heap0.get 0) ∧
      (∀ (fe : JVal → JVal) (cfg : Config) (req : Request) (data : PyData) (vars : JVal)
          (resp : Response) (c : EngineCall),
        GraphQLEndpoint.getResponse fe cfg req data vars = .ok (resp, [c]) →
        c.context = httpContextValue cfg.context req) ∧
      (∀ (cfg : Config) (ws : WsConn) (p : GraphQLWSProtocol),
        SubscriptionEndpoint.onConnect cfg ws = .ok p → p.context = cfg.context)) :=
  ⟨by decide, C3_fresh_context heap0 0 req0 (by decide)⟩

/-- C6 (amended): a POST whose Content-Type contains `application/graphql`
and not `application/json`, and whose `variables` query-string parameter (if
present) parses as JSON, is handled exactly like `{query: <decoded body>}`:
the handler equals `_get_response` on that synthesized dict, and the engine
receives the decoded body verbatim as the query with no JSON parsing of the
body. -/
theorem C6_graphql_content_type (loads : String → Option JVal) (fe : JVal → JVal)
    (cfg : Config) (req : Request) (vars : JVal)
    (hg : strContains (headerGetD req.headers "Content-Type" "") "application/graphql" = true)
    (hj : strContains (headerGetD req.headers "Content-Type" "") "application/json" = false)
    (hv : qsVariables loads req = .ok vars) :
    GraphQLEndpoint.post loads fe cfg req =
      GraphQLEndpoint.getResponse fe cfg req
        (.jsonData (.jobj [("query", .jstr req.body)])) vars ∧
    (∃ resp, GraphQLEndpoint.post loads fe cfg req =
      .ok (resp, [⟨.jstr req.body, httpContextValue cfg.context req, vars, .jnull⟩])) := by
  have h1 : GraphQLEndpoint.post loads fe cfg req =
      GraphQLEndpoint.getResponse fe cfg req
        (.jsonData (.jobj [("query", .jstr req.body)])) vars := by
    unfold GraphQLEndpoint.post
    rw [hv]
    simp [hj, hg]
  refine ⟨h1, ?_⟩
  rw [h1]
  exact ⟨_, rfl⟩

/-- Witness for C6 at a POST with Content-Type `application/graphql` and
body `hello`. -/
theorem C6_graphql_content_type_witness :
    (strContains (headerGetD [("content-type", "application/graphql")] "Content-Type" "")
        "application/graphql" = true ∧
      qsVariables loads0 ⟨"POST", "", [("content-type", "application/graphql")], [], "hello"⟩ =
        .ok .jnull) ∧
    (∃ resp, GraphQLEndpoint.post loads0 fe0 cfg0
        ⟨"POST", "", [("content-type", "application/graphql")], [], "hello"⟩ =
      .ok (resp, [⟨.jstr "hello",
        httpContextValue [] ⟨"POST", "", [("content-type", "application/graphql")], [], "hello"⟩,
        .jnull, .jnull⟩])) :=
  ⟨⟨rfl, rfl⟩,
   (C6_graphql_content_type loads0 fe0 cfg0
      ⟨"POST", "", [("content-type", "application/graphql")], [], "hello"⟩
      .jnull rfl rfl rfl).2⟩

/-- Counterexample to C6 as stated: the Content-Type of this POST contains
`application/graphql`, yet the handler takes the `application/json` branch
(checked first), parses the body as JSON, fails, and answers 400 without any
engine call — the decoded body `hello` is never used as the query. -/
theorem C6_counterexample :
    strContains (headerGetD reqC6.headers "Content-Type" "") "application/graphql" = true ∧
    GraphQLEndpoint.post loads0 fe0 cfg0 reqC6 =
      .ok (⟨400, .json (.jobj [("error", .jstr "Invalid JSON.")])⟩, []) :=
  ⟨rfl, rfl⟩

/-- C7 (amended): a POST whose Content-Type contains `application/json`,
whose `variables` query-string parameter (if present) parses as JSON, and
whose body parses to a JSON object with `query` and `variables` entries,
invokes the engine exactly once with that `query` value as the query and
that `variables` value as the variables. -/
theorem C7_json_body_fields (loads : String → Option JVal) (fe : JVal → JVal)
    (cfg : Config) (req : Request) (vars : JVal) (kvs : List (String × JVal)) (q v : JVal)
    (hct : strContains (headerGetD req.headers "Content-Type" "") "application/json" = true)
    (hv : qsVariables loads req = .ok vars)
    (hb : loads req.body = some (.jobj kvs))
    (hq : kvs.lookup "query" = some q)
    (hvar : kvs.lookup "variables" = some v) :
    ∃ resp, GraphQLEndpoint.post loads fe cfg req =
      .ok (resp, [⟨q, httpContextValue cfg.context req, v,
        (kvs.lookup "operationName").getD .jnull⟩]) := by
  unfold GraphQLEndpoint.post
  rw [hv]
  simp only [hct, if_pos, if_true]
  rw [hb]
  simp only [pyGet, hvar, Option.getD_some]
  unfold GraphQLEndpoint.getResponse
  simp only [PyData.getitem, PyData.getOpt, hq]
  exact ⟨_, rfl⟩

/-- Witness for C7: a JSON POST whose body carries both fields. -/
theorem C7_json_body_fields_witness :
    (loadsC7 "BODY" = some (.jobj [("query", .jstr "hello"), ("variables", .jarr [])]) ∧
      qsVariables loadsC7 ⟨"POST", "", [("content-type", "application/json")], [], "BODY"⟩ =
        .ok .jnull) ∧
    (∃ resp, GraphQLEndpoint.post loadsC7 fe0 cfg0
        ⟨"POST", "", [("content-type", "application/json")], [], "BODY"⟩ =
      .ok (resp, [⟨.jstr "hello",
        httpContextValue [] ⟨"POST", "", [("content-type", "application/json")], [], "BODY"⟩,
        .jarr [], .jnull⟩])) :=
  ⟨⟨rfl, rfl⟩,
   C7_json_body_fields loadsC7 fe0 cfg0
     ⟨"POST", "", [("content-type", "application/json")], [], "BODY"⟩
     .jnull [("query", .jstr "hello"), ("variables", .jarr [])]
     (.jstr "hello") (.jarr []) rfl rfl rfl rfl rfl⟩

/-- Counterexample to C7 as stated: this POST has a well-formed
`application/json` body containing `query` and `variables`, yet the handler
answers 400 for the malformed `variables` query-string parameter before
reading the body, and the engine receives nothing. -/
theorem C7_counterexample :
    loadsC7 reqC7.body = some (.jobj [("query", .jstr "hello"), ("variables", .jarr [])]) ∧
    GraphQLEndpoint.post loadsC7 fe0 cfg0 reqC7 = .ok (badVariablesResponse, []) :=
  ⟨rfl, rfl⟩

/-- C9 (amended): on a POST whose Content-Type contains `application/json`,
whose `variables` query-string parameter (if present) parses as JSON, and
whose body parses to a JSON object with a `query` entry, a `variables` entry
of the body takes precedence (it is what the engine receives), and when the
body has no `variables` key the engine receives the parsed query-string
variables — `vars`, which `qsVariables` sets to null when the parameter is
absent. -/
theorem C9_variables_precedence (loads : String → Option JVal) (fe : JVal → JVal)
    (cfg : Config) (req : Request) (vars : JVal) (kvs : List (String × JVal)) (q : JVal)
    (hct : strContains (headerGetD req.headers "Content-Type" "") "application/json" = true)
    (hv : qsVariables loads req = .ok vars)
    (hb : loads req.body = some (.jobj kvs))
    (hq : kvs.lookup "query" = some q) :
    (∀ v, kvs.lookup "variables" = some v →
      ∃ resp, GraphQLEndpoint.post loads fe cfg req =
        .ok (resp, [⟨q, httpContextValue cfg.context req, v,
          (kvs.lookup "operationName").getD .jnull⟩])) ∧
    (kvs.lookup "variables" = none →
      ∃ resp, GraphQLEndpoint.post loads fe cfg req =
        .ok (resp, [⟨q, httpContextValue cfg.context req, vars,
          (kvs.lookup "operationName").getD .jnull⟩])) := by
  constructor
  · intro v hvar
    unfold GraphQLEndpoint.post
    rw [hv]
    simp only [hct, if_pos, if_true]
    rw [hb]
    simp only [pyGet, hvar, Option.getD_some]
    unfold GraphQLEndpoint.getResponse
    simp only [PyData.getitem, PyData.getOpt, hq]
    exact ⟨_, rfl⟩
  · intro hnone
    unfold GraphQLEndpoint.post
    rw [hv]
    simp only [hct, if_pos, if_true]
    rw [hb]
    simp only [pyGet, hnone, Option.getD_none]
    unfold GraphQLEndpoint.getResponse
    simp only [PyData.getitem, PyData.getOpt, hq]
    exact ⟨_, rfl⟩

/-- Witness for C9: with body `BODY1` (which has `variables`) the engine
receives the body's variables although the query string supplied some; with
body `BODY2` (no `variables` key) the engine receives the parsed
query-string variables. -/
theorem C9_variables_precedence_witness :
    (loadsC9 "BODY1" =
        some (.jobj [("query", .jstr "hello"), ("variables", .jobj [("x", .jnum 1)])]) ∧
      qsVariables loadsC9
          ⟨"POST", "", [("content-type", "application/json")], [("variables", "VGOOD")], "BODY1"⟩ =
        .ok (.jnum 7)) ∧
    (∃ resp, GraphQLEndpoint.post loadsC9 fe0 cfg0
        ⟨"POST", "", [("content-type", "application/json")], [("variables", "VGOOD")], "BODY1"⟩ =
      .ok (resp, [⟨.jstr "hello",
        httpContextValue []
          ⟨"POST", "", [("content-type", "application/json")], [("variables", "VGOOD")], "BODY1"⟩,
        .jobj [("x", .jnum 1)], .jnull⟩])) ∧
    (∃ resp, GraphQLEndpoint.post loadsC9 fe0 cfg0
        ⟨"POST", "", [("content-type", "application/json")], [("variables", "VGOOD")], "BODY2"⟩ =
      .ok (resp, [⟨.jstr "hello",
        httpContextValue []
          ⟨"POST", "", [("content-type", "application/json")], [("variables", "VGOOD")], "BODY2"⟩,
        .jnum 7, .jnull⟩])) :=
  ⟨⟨rfl, rfl⟩,
   (C9_variables_precedence loadsC9 fe0 cfg0
      ⟨"POST", "", [("content-type", "application/json")], [("variables", "VGOOD")], "BODY1"⟩
      (.jnum 7) [("query", .jstr "hello"), ("variables", .jobj [("x", .jnum 1)])]
      (.jstr "hello") rfl rfl rfl rfl).1 (.jobj [("x", .jnum 1)]) rfl,
   (C9_variables_precedence loadsC9 fe0 cfg0
      ⟨"POST", "", [("content-type", "application/json")], [("variables", "VGOOD")], "BODY2"⟩
      (.jnum 7) [("query", .jstr "hello")]
      (.jstr "hello") rfl rfl rfl rfl).2 rfl⟩

/-- Counterexample to C9 as stated: although this POST's JSON body carries a
`variables` entry, it does not take precedence — the malformed query-string
`variables` parameter is parsed first and the handler answers 400 with no
engine call. -/
theorem C9_counterexample :
    loadsC9 reqC9.body =
      some (.jobj [("query", .jstr "hello"), ("variables", .jobj [("x", .jnum 1)])]) ∧
    loadsC9 "nope" = none ∧
    GraphQLEndpoint.post loadsC9 fe0 cfg0 reqC9 = .ok (badVariablesResponse, []) :=
  ⟨rfl, rfl, rfl⟩

/-- Folding the last-wins query-parameter lookup over entries none of which
match the key leaves the accumulator unchanged. -/
theorem qpFold_acc (k : String) (ps : List (String × String)) (acc : Option String)
    (h : ps.any (fun p => p.1 == k) = false) :
    ps.foldl (fun a p => if p.1 == k then some p.2 else a) acc = acc := by
  induction ps generalizing acc with
  | nil => rfl
  | cons p rest ih =>
    rw [List.any_cons] at h
    have h1 : (p.1 == k) = false := by
      cases hpk : p.1 == k
      · rfl
      · rw [hpk] at h
        simp at h
    have h2 : rest.any (fun p => p.1 == k) = false := by
      cases hr : rest.any (fun p => p.1 == k)
      · rfl
      · rw [hr] at h
        simp at h
    rw [List.foldl_cons, if_neg (by simp [h1])]
    exact ih _ h2

/-- A key absent from the query string looks up to nothing. -/
theorem qpGet_eq_none (ps : List (String × String)) (k : String)
    (h : qpHas ps k = false) : qpGet ps k = none :=
  qpFold_acc k ps none h

/-- The only early-exit response of the shared variables prologue is the
400 `Unable to decode variables` JSON response. -/
theorem qsVariables_error (loads : String → Option JVal) (req : Request) (resp : Response)
    (h : qsVariables loads req = .error resp) : resp = badVariablesResponse := by
  unfold qsVariables at h
  cases hq : qpGet req.queryParams "variables" with
  | none =>
    rw [hq] at h
    simp at h
  | some raw =>
    rw [hq] at h
    cases hl : loads raw with
    | none =>
      simp [hl] at h
      exact h.symm
    | some v =>
      simp [hl] at h

/-- C8 (amended): for every request carrying no GraphQL query in any
supported location (no `query` query-string parameter, no `query` entry in a
JSON-object body, and a Content-Type without `application/graphql`, whose
body would be the query), the engine is never invoked; the GET handler
always answers 400, and the POST handler answers 400, or 415 when the
Content-Type is unsupported, or raises (body parsing to a non-object JSON
value) — never reaching the engine. -/
theorem C8_no_query (loads : String → Option JVal) (fe : JVal → JVal)
    (cfg : Config) (req : Request)
    (hqp : qpHas req.queryParams "query" = false)
    (hg : strContains (headerGetD req.headers "Content-Type" "") "application/graphql" = false)
    (hb : ∀ kvs, loads req.body = some (.jobj kvs) → kvs.lookup "query" = none) :
    (∃ resp, GraphQLEndpoint.get loads fe cfg req = .ok (resp, []) ∧ resp.status = 400) ∧
    callsOf (GraphQLEndpoint.post loads fe cfg req) = [] ∧
    (∀ resp cs, GraphQLEndpoint.post loads fe cfg req = .ok (resp, cs) →
      resp.status = 400 ∨ resp.status = 415) := by
  have hqget : qpGet req.queryParams "query" = none := qpGet_eq_none _ _ hqp
  have hGet : ∃ resp, GraphQLEndpoint.get loads fe cfg req = .ok (resp, []) ∧
      resp.status = 400 := by
    unfold GraphQLEndpoint.get
    cases hv : qsVariables loads req with
    | error resp =>
      have hbad := qsVariables_error loads req resp hv
      subst hbad
      exact ⟨badVariablesResponse, rfl, rfl⟩
    | ok vars =>
      refine ⟨⟨400, .text "No GraphQL query found in the request"⟩, ?_, rfl⟩
      unfold GraphQLEndpoint.getResponse
      simp only [PyData.getitem, hqget]
  have hPost : GraphQLEndpoint.post loads fe cfg req = .ok (badVariablesResponse, []) ∨
      GraphQLEndpoint.post loads fe cfg req =
        .ok (⟨400, .json (.jobj [("error", .jstr "Invalid JSON.")])⟩, []) ∨
      GraphQLEndpoint.post loads fe cfg req =
        .ok (⟨400, .text "No GraphQL query found in the request"⟩, []) ∨
      GraphQLEndpoint.post loads fe cfg req = .error PyErr.attributeError ∨
      GraphQLEndpoint.post loads fe cfg req =
        .ok (⟨415, .text "Unsupported Media Type"⟩, []) := by
    unfold GraphQLEndpoint.post
    cases hv : qsVariables loads req with
    | error resp =>
      have hbad := qsVariables_error loads req resp hv
      subst hbad
      exact Or.inl rfl
    | ok vars =>
      by_cases hct : strContains (headerGetD req.headers "Content-Type" "") "application/json" = true
      · simp only [hct, if_pos, if_true]
        cases hlb : loads req.body with
        | none => exact Or.inr (Or.inl rfl)
        | some d =>
          cases d with
          | jobj kvs =>
            have hq0 : kvs.lookup "query" = none := hb kvs hlb
            refine Or.inr (Or.inr (Or.inl ?_))
            simp only [pyGet]
            unfold GraphQLEndpoint.getResponse
            simp only [PyData.getitem, hq0]
          | jnull => exact Or.inr (Or.inr (Or.inr (Or.inl rfl)))
          | jbool b => exact Or.inr (Or.inr (Or.inr (Or.inl rfl)))
          | jnum n => exact Or.inr (Or.inr (Or.inr (Or.inl rfl)))
          | jstr s => exact Or.inr (Or.inr (Or.inr (Or.inl rfl)))
          | jarr xs => exact Or.inr (Or.inr (Or.inr (Or.inl rfl)))
      · have hct2 : strContains (headerGetD req.headers "Content-Type" "")
            "application/json" = false := by
          cases hc : strContains (headerGetD req.headers "Content-Type" "") "application/json"
          · rfl
          · exact absurd hc hct
        refine Or.inr (Or.inr (Or.inr (Or.inr ?_)))
        simp [hct2, hg, hqp]
  refine ⟨hGet, ?_, ?_⟩
  · rcases hPost with h | h | h | h | h <;> rw [h] <;> rfl
  · intro resp cs hok
    rcases hPost with h | h | h | h | h <;> rw [h] at hok <;>
      cases hok <;>
      first
        | exact Or.inl rfl
        | exact Or.inr rfl

/-- Witness for C8 with a decoder that accepts nothing: the GET handler
answers 400, the POST handler performs no engine call and answers 415. -/
theorem C8_no_query_witness :
    (qpHas reqC8.queryParams "query" = false ∧
      strContains (headerGetD reqC8.headers "Content-Type" "") "application/graphql" = false) ∧
    ((∃ resp, GraphQLEndpoint.get loads0 fe0 cfg0 reqC8 = .ok (resp, []) ∧
        resp.status = 400) ∧
      callsOf (GraphQLEndpoint.post loads0 fe0 cfg0 reqC8) = [] ∧
      (∀ resp cs, GraphQLEndpoint.post loads0 fe0 cfg0 reqC8 = .ok (resp, cs) →
        resp.status = 400 ∨ resp.status = 415)) :=
  ⟨⟨rfl, rfl⟩,
   C8_no_query loads0 fe0 cfg0 reqC8 rfl rfl
     (fun kvs h => by simp [loads0] at h)⟩

/-- Counterexample to C8 as stated: this POST carries no query anywhere, yet
the response is 415 Unsupported Media Type, not 400. -/
theorem C8_counterexample :
    GraphQLEndpoint.post loads0 fe0 cfg0 reqC8 =
      .ok (⟨415, .text "Unsupported Media Type"⟩, []) ∧
    (415 : Nat) ≠ 400 :=
  ⟨rfl, by decide⟩

/-- C10 (amended): for every request whose Accept header contains
`text/html` the engine is never invoked; when GraphiQL is configured without
a dedicated path, GET (and HEAD) requests are served the rendered GraphiQL
HTML page and other methods receive 405 Method Not Allowed; otherwise the
response is 404 Not Found. -/
theorem C10_texthtml (loads : String → Option JVal) (fe : JVal → JVal)
    (cfg : Config) (req : Request)
    (hacc : strContains (headerGetD req.headers "Accept" "") "text/html" = true) :
    callsOf (GraphQLEndpoint.dispatch loads fe cfg req) = [] ∧
    (∀ g, cfg.graphiql = some g → g.path = none →
      (methodAllowsGet req.method = true →
        GraphQLEndpoint.dispatch loads fe cfg req =
          .ok (⟨200, .html (g.render (req.rootPath ++ cfg.path)
            (cfg.subscriptions.map (fun s => req.rootPath ++ s.path)))⟩, [])) ∧
      (methodAllowsGet req.method = false →
        GraphQLEndpoint.dispatch loads fe cfg req =
          .ok (⟨405, .text "Method Not Allowed"⟩, []))) ∧
    (graphiqlNoPath cfg = false →
      GraphQLEndpoint.dispatch loads fe cfg req = .ok (⟨404, .text "Not Found"⟩, [])) := by
  refine ⟨?_, ?_, ?_⟩
  · unfold GraphQLEndpoint.dispatch
    simp only [hacc, if_pos, if_true]
    by_cases hnp : graphiqlNoPath cfg = true
    · simp only [hnp, if_pos, if_true]
      by_cases hm : methodAllowsGet req.method = true
      · simp only [hm, if_pos, if_true]
        cases hge : GraphiQLEndpoint.get cfg req <;> simp [callsOf]
      · have hm2 : methodAllowsGet req.method = false := by
          cases hmm : methodAllowsGet req.method
          · rfl
          · exact absurd hmm hm
        simp [hm2, callsOf]
    · have hnp2 : graphiqlNoPath cfg = false := by
        cases hn : graphiqlNoPath cfg
        · rfl
        · exact absurd hn hnp
      simp [hnp2, callsOf]
  · intro g hg hpath
    have hnp : graphiqlNoPath cfg = true := by
      simp [graphiqlNoPath, hg, hpath]
    have hge : GraphiQLEndpoint.get cfg req =
        .ok ⟨200, .html (g.render (req.rootPath ++ cfg.path)
          (cfg.subscriptions.map (fun s => req.rootPath ++ s.path)))⟩ := by
      unfold GraphiQLEndpoint.get
      rw [hg]
    constructor
    · intro hm
      unfold GraphQLEndpoint.dispatch
      simp only [hacc, hnp, hm, if_pos, if_true]
      rw [hge]
    · intro hm
      unfold GraphQLEndpoint.dispatch
      simp only [hacc, hnp, hm, if_pos, if_true, Bool.false_eq_true, if_false]
  · intro hnp
    unfold GraphQLEndpoint.dispatch
    simp only [hacc, hnp, if_pos, if_true, Bool.false_eq_true, if_false]

/-- Witness for C10: a GET with `Accept: text/html` against a configuration
with GraphiQL and no dedicated path is served the rendered page with no
engine call; with no GraphiQL configured the same request gets 404. -/
theorem C10_texthtml_witness :
    (strContains (headerGetD [("accept", "text/html")] "Accept" "") "text/html" = true ∧
      cfgC10.graphiql = some gqlCfg0 ∧ gqlCfg0.path = none ∧
      methodAllowsGet "GET" = true) ∧
    GraphQLEndpoint.dispatch loads0 fe0 cfgC10 ⟨"GET", "", [("accept", "text/html")], [], ""⟩ =
      .ok (⟨200, .html "PAGE"⟩, []) ∧
    GraphQLEndpoint.dispatch loads0 fe0 cfg0 ⟨"GET", "", [("accept", "text/html")], [], ""⟩ =
      .ok (⟨404, .text "Not Found"⟩, []) :=
  ⟨⟨rfl, rfl, rfl, rfl⟩,
   ((C10_texthtml loads0 fe0 cfgC10 ⟨"GET", "", [("accept", "text/html")], [], ""⟩
      rfl).2.1 gqlCfg0 rfl rfl).1 rfl,
   (C10_texthtml loads0 fe0 cfg0 ⟨"GET", "", [("accept", "text/html")], [], ""⟩
      rfl).2.2 rfl⟩

/-- Counterexample to C10 as stated: with GraphiQL configured without a
dedicated path, a POST whose Accept header contains `text/html` receives 405
Method Not Allowed — neither the GraphiQL HTML page nor 404. -/
theorem C10_counterexample :
    strContains (headerGetD reqC10.headers "Accept" "") "text/html" = true ∧
    GraphQLEndpoint.dispatch loads0 fe0 cfgC10 reqC10 =
      .ok (⟨405, .text "Method Not Allowed"⟩, []) ∧
    (405 : Nat) ≠ 404 ∧ (405 : Nat) ≠ 200 :=
  ⟨rfl, rfl, by decide, by decide⟩

end TartifletteAsgi
